import Mathlib

/-!
Shallow embedding of `src/lib/loader/loader.c` (the frida iOS loader):
the framed I/O primitives (`frida_loader_send_bytes`, `frida_loader_recv_bytes`),
the value codec (`frida_loader_send_value`, `frida_loader_recv_value`), the
bootstrap thread routine (`frida_loader_run`) and the handshake client
(`frida_loader_on_load`).

Bytes are modelled as `Nat` (a real byte is < 256; hypotheses add the bound
where it matters).  The stream socket is modelled by an explicit schedule of
system-call outcomes: each `recv` call consumes one `Delivery`, each `send`
call consumes one `SendEv`.  A `Delivery.bytes bs` delivers at most the
requested number of bytes from `bs`; any remainder stays at the head of the
channel, exactly as unread bytes stay in a socket buffer.
-/

namespace FridaLoader

/-- Outcome of one underlying `recv` system call on the control socket:
`bytes bs` means the kernel had the bytes `bs` available (the call returns at
most the requested count, the rest stays queued), `closed` is a zero-length
read (orderly peer closure), `eintr` is `-1` with `errno = EINTR`, and `err`
is `-1` with any other `errno`. -/
inductive Delivery where
  | bytes (bs : List Nat)
  | closed
  | eintr
  | err
deriving DecidableEq, Repr

/-- Outcome of one underlying `send` system call: `ok n` means the kernel
accepted up to `n` bytes of the remaining data, `eintr` is `-1` with
`errno = EINTR`, and `err` is `-1` with any other `errno`. -/
inductive SendEv where
  | ok (n : Nat)
  | eintr
  | err
deriving DecidableEq, Repr

/-- The `while (offset != size)` loop of `frida_loader_recv_bytes`: `buf` is
the part of the caller's buffer filled so far (`offset = buf.length`).
Returns the filled buffer (or `none` on failure, mirroring `return false`)
and the unconsumed part of the channel. -/
def recvLoop (size : Nat) : List Delivery → List Nat → Option (List Nat) × List Delivery
  | evs, buf =>
    if buf.length = size then (some buf, evs)
    else
      match evs with
      | [] => (none, [])
      | Delivery.closed :: rest => (none, rest)
      | Delivery.err :: rest => (none, rest)
      | Delivery.eintr :: rest => recvLoop size rest buf
      | Delivery.bytes bs :: rest =>
        let n := min (size - buf.length) bs.length
        if n = 0 then (none, rest)
        else
          let buf2 := buf ++ bs.take n
          if buf2.length = size then
            (some buf2, if n < bs.length then Delivery.bytes (bs.drop n) :: rest else rest)
          else recvLoop size rest buf2

/-- Model of `frida_loader_recv_bytes (s, bytes, size)`: fill exactly `size` bytes from
the channel, retrying on `EINTR`, failing on closure or any other error. -/
def frida_loader_recv_bytes (size : Nat) (evs : List Delivery) :
    Option (List Nat) × List Delivery :=
  recvLoop size evs []

/-- Result of `frida_loader_recv_value`, with explicit accounting of the
`malloc` and `free` calls the function itself performed (`mallocs` counts the
single `malloc (size)`; `frees` counts the `free (buf)` on the failure path;
a returned buffer is owned by the caller and not freed here). -/
structure RecvValueResult where
  value : Option (List Nat)
  chan : List Delivery
  mallocs : Nat
  frees : Nat
deriving DecidableEq, Repr

/-- Model of `frida_loader_recv_value (s)`: read a one-byte length prefix, then
`malloc (size)` and read exactly `size` payload bytes into it; on a failed
payload read the buffer is freed and `NULL` (`none`) returned.  No NUL
terminator is appended: the buffer is exactly `size` bytes. -/
def frida_loader_recv_value (evs : List Delivery) : RecvValueResult :=
  match frida_loader_recv_bytes 1 evs with
  | (none, rest) => ⟨none, rest, 0, 0⟩
  | (some szBytes, rest) =>
    let size := szBytes.headD 0
    match frida_loader_recv_bytes size rest with
    | (none, rest2) => ⟨none, rest2, 1, 1⟩
    | (some buf, rest2) => ⟨some buf, rest2, 1, 0⟩

/-- The `while (offset != size)` loop of `frida_loader_send_bytes`: `wire` is
what has been handed to the kernel so far, `pending` the bytes still to send.
Returns success, the bytes put on the wire, and the unconsumed schedule. -/
def sendLoop : List SendEv → List Nat → List Nat → Bool × List Nat × List SendEv
  | evs, wire, pending =>
    if pending.length = 0 then (true, wire, evs)
    else
      match evs with
      | [] => (false, wire, [])
      | SendEv.ok n :: rest =>
        let m := min n pending.length
        sendLoop rest (wire ++ pending.take m) (pending.drop m)
      | SendEv.eintr :: rest => sendLoop rest wire pending
      | SendEv.err :: rest => (false, wire, rest)

/-- Model of `frida_loader_send_bytes (s, bytes, size)`: transmit all of `bytes`,
retrying on `EINTR`, failing on any other error. -/
def frida_loader_send_bytes (bytes : List Nat) (evs : List SendEv) :
    Bool × List Nat × List SendEv :=
  sendLoop evs [] bytes

/-- C `strlen` on the byte buffer `v`: the number of bytes before the first
zero byte (a buffer with an embedded zero is measured only up to it). -/
def strlen (v : List Nat) : Nat := (v.takeWhile (fun b => b != 0)).length

/-- Model of `frida_loader_send_value (s, v)`: `uint8_t size = strlen (v)` (the C
conversion to `uint8_t` reduces `strlen (v)` modulo 256), send the single
`size` byte, then send the first `size` bytes of `v`. -/
def frida_loader_send_value (v : List Nat) (evs : List SendEv) :
    Bool × List Nat × List SendEv :=
  let size := strlen v % 256
  match frida_loader_send_bytes [size] evs with
  | (false, wire, rest) => (false, wire, rest)
  | (true, wire1, rest) =>
    match frida_loader_send_bytes (v.take size) rest with
    | (ok2, wire2, rest2) => (ok2, wire1 ++ wire2, rest2)

/-- The byte stream `frida_loader_send_value` produces for `v` over a fully
cooperative channel (every underlying `send` accepted in full). -/
def encodeValue (v : List Nat) : List Nat :=
  (frida_loader_send_value v [SendEv.ok 1, SendEv.ok 256]).2.1

/-- Decoding: `frida_loader_recv_value` applied to a channel holding exactly the byte
stream `w` (loopback of an encoded value). -/
def decodeValue (w : List Nat) : Option (List Nat) :=
  (frida_loader_recv_value [Delivery.bytes w]).value

/-- Observable step of `frida_loader_run` (the detached bootstrap thread):
dynamic load of the agent, the call of `frida_agent_main` with its three
arguments (`data_string`, `mapped_range`, `parent_thread_id`), unload, and
the two `free` calls.  `assertFailed` is the `assert (agent_main != NULL)`
firing. -/
inductive RunAction where
  | dlopenAgent
  | agentMain (dataString : List Nat) (mappedRange : Option Nat) (parentThreadId : Nat)
  | dlcloseAgent
  | freeAgentPath
  | freePipeAddress
  | assertFailed
deriving DecidableEq, Repr

/-- Model of `frida_loader_run (pipe_address)`: build the agent path, `dlopen` the
agent (on failure free the path and the pipe address and exit), resolve
`frida_agent_main` (asserted non-NULL), call it as
`agent_main (pipe_address, NULL, 0)`, then `dlclose` and free both buffers.
The environment choices `dlopen_ok` and `dlsym_ok` stand for the outcomes of
`dlopen` and `dlsym`. -/
def frida_loader_run (pipe_address : List Nat) (dlopen_ok : Bool) (dlsym_ok : Bool) :
    List RunAction :=
  if dlopen_ok then
    if dlsym_ok then
      [RunAction.dlopenAgent, RunAction.agentMain pipe_address none 0,
       RunAction.dlcloseAgent, RunAction.freeAgentPath, RunAction.freePipeAddress]
    else
      [RunAction.dlopenAgent, RunAction.assertFailed]
  else
    [RunAction.dlopenAgent, RunAction.freeAgentPath, RunAction.freePipeAddress]

/-- Final observable state of one run of `frida_loader_on_load`.
`bootstrapAddress` is the pipe-address buffer now owned by a successfully
created bootstrap thread (`none` if no thread was created).
`pipeAddressFreedByHandshake` records whether `frida_loader_on_load` itself
ever calls `free (pipe_address)` — the C function contains no such call, so
it is `false` on every path. -/
structure OnLoadOutcome where
  pidSendAttempted : Bool
  pipeAddress : Option (List Nat)
  threadCreateAttempted : Bool
  bootstrapAddress : Option (List Nat)
  resumeRecvAttempted : Bool
  resumeToken : Option (List Nat)
  resumeFreed : Bool
  socketClosed : Bool
  callbackPathFreed : Bool
  pipeAddressFreedByHandshake : Bool
deriving DecidableEq, Repr

/-- Model of `frida_loader_on_load`: the constructor / handshake client.
Environment: `socket_ok` and `connect_ok` are the outcomes of `socket` and
`connect`; `pid_str` is the decimal rendering of `getpid ()` that
`frida_loader_send (s, "%d", getpid ())` forwards to
`frida_loader_send_value`; `sendEvs` and `chan` schedule the socket system
calls; `pthread_create_ok` is the outcome of `pthread_create` (whose return
value the C code does not check: on failure it falls through to
`pthread_detach` and the resume receive exactly as on success, and nobody
ever frees `pipe_address`). -/
def frida_loader_on_load (socket_ok connect_ok : Bool) (pid_str : List Nat)
    (sendEvs : List SendEv) (chan : List Delivery) (pthread_create_ok : Bool) :
    OnLoadOutcome :=
  if !socket_ok then
    { pidSendAttempted := false, pipeAddress := none, threadCreateAttempted := false,
      bootstrapAddress := none, resumeRecvAttempted := false, resumeToken := none,
      resumeFreed := false, socketClosed := false, callbackPathFreed := true,
      pipeAddressFreedByHandshake := false }
  else if !connect_ok then
    { pidSendAttempted := false, pipeAddress := none, threadCreateAttempted := false,
      bootstrapAddress := none, resumeRecvAttempted := false, resumeToken := none,
      resumeFreed := false, socketClosed := true, callbackPathFreed := true,
      pipeAddressFreedByHandshake := false }
  else if !(frida_loader_send_value pid_str sendEvs).1 then
    { pidSendAttempted := true, pipeAddress := none, threadCreateAttempted := false,
      bootstrapAddress := none, resumeRecvAttempted := false, resumeToken := none,
      resumeFreed := false, socketClosed := true, callbackPathFreed := true,
      pipeAddressFreedByHandshake := false }
  else
    let r1 := frida_loader_recv_value chan
    match r1.value with
    | none =>
      { pidSendAttempted := true, pipeAddress := none, threadCreateAttempted := false,
        bootstrapAddress := none, resumeRecvAttempted := false, resumeToken := none,
        resumeFreed := false, socketClosed := true, callbackPathFreed := true,
        pipeAddressFreedByHandshake := false }
    | some addr =>
      let r2 := frida_loader_recv_value r1.chan
      { pidSendAttempted := true, pipeAddress := some addr,
        threadCreateAttempted := true,
        bootstrapAddress := if pthread_create_ok then some addr else none,
        resumeRecvAttempted := true, resumeToken := r2.value,
        resumeFreed := true, socketClosed := true, callbackPathFreed := true,
        pipeAddressFreedByHandshake := false }

/-! ### Computation lemmas about the loops -/

/-- A receive loop entered with the buffer already full returns at once. -/
lemma recvLoop_full (size : Nat) (evs : List Delivery) (buf : List Nat)
    (h : buf.length = size) : recvLoop size evs buf = (some buf, evs) := by
  rw [recvLoop.eq_def]
  simp [h]

/-- An empty schedule with an unfilled buffer yields failure. -/
lemma recvLoop_nil (size : Nat) (buf : List Nat) (h : buf.length ≠ size) :
    recvLoop size [] buf = (none, []) := by
  rw [recvLoop.eq_def]
  simp [h]

/-- A delivery holding exactly the missing bytes completes the loop. -/
lemma recvLoop_bytes_all (size : Nat) (bs : List Nat) (rest : List Delivery)
    (buf : List Nat) (hlen : buf.length + bs.length = size) (hne : bs ≠ []) :
    recvLoop size (Delivery.bytes bs :: rest) buf = (some (buf ++ bs), rest) := by
  have hbs : 0 < bs.length := List.length_pos.mpr hne
  have hb : buf.length ≠ size := by omega
  rw [recvLoop.eq_def]
  simp only [hb, if_false]
  have hmin : min (size - buf.length) bs.length = bs.length := by omega
  simp [hmin, List.take_length]
  simp [hne, hlen]

/-- A delivery holding more bytes than are missing completes the loop and
leaves the remainder queued at the head of the channel. -/
lemma recvLoop_bytes_over (size : Nat) (bs : List Nat) (rest : List Delivery)
    (buf : List Nat) (hb : buf.length < size) (hover : size - buf.length < bs.length) :
    recvLoop size (Delivery.bytes bs :: rest) buf =
      (some (buf ++ bs.take (size - buf.length)),
       Delivery.bytes (bs.drop (size - buf.length)) :: rest) := by
  have hb2 : buf.length ≠ size := by omega
  rw [recvLoop.eq_def]
  simp only [hb2, if_false]
  have hmin : min (size - buf.length) bs.length = size - buf.length := by omega
  have hnz : ¬ (size - buf.length = 0) := by omega
  simp [hmin, hnz, hover]
  omega

/-- Whatever the schedule, a buffer returned as `some` holds exactly `size`
bytes: the loop only exits successfully once `offset == size`. -/
lemma recvLoop_some_length (size : Nat) :
    ∀ (evs : List Delivery) (buf out : List Nat) (rem : List Delivery),
      recvLoop size evs buf = (some out, rem) → out.length = size := by
  intro evs
  induction evs with
  | nil =>
    intro buf out rem h
    by_cases hb : buf.length = size
    · rw [recvLoop_full size [] buf hb] at h
      cases h
      exact hb
    · rw [recvLoop_nil size buf hb] at h
      cases h
  | cons e rest ih =>
    intro buf out rem h
    by_cases hb : buf.length = size
    · rw [recvLoop_full size (e :: rest) buf hb] at h
      cases h
      exact hb
    · rw [recvLoop.eq_def] at h
      simp only [hb, if_false] at h
      cases e with
      | closed => cases h
      | err => cases h
      | eintr => exact ih buf out rem h
      | bytes bs =>
        simp only at h
        by_cases hn : min (size - buf.length) bs.length = 0
        · simp [hn] at h
        · simp only [hn, if_false] at h
          by_cases h2 : (buf ++ bs.take (min (size - buf.length) bs.length)).length = size
          · simp only [h2, if_true] at h
            cases h
            exact h2
          · simp only [h2, if_false] at h
            exact ih _ out rem h

/-- A delivery holding fewer bytes than are missing is absorbed whole and
the loop goes on with the extended buffer. -/
lemma recvLoop_bytes_step (size : Nat) (bs : List Nat) (rest : List Delivery)
    (buf : List Nat) (hne : bs ≠ []) (hunder : buf.length + bs.length < size) :
    recvLoop size (Delivery.bytes bs :: rest) buf = recvLoop size rest (buf ++ bs) := by
  have hbs : 0 < bs.length := List.length_pos.mpr hne
  have hb : buf.length ≠ size := by omega
  rw [recvLoop.eq_def]
  simp only [hb, if_false]
  have hmin : min (size - buf.length) bs.length = bs.length := by omega
  simp [hmin, List.take_length]
  have h2 : ¬ buf.length + bs.length = size := by omega
  simp [hne, h2]

/-- One-byte-at-a-time deliveries still fill the buffer completely. -/
lemma recvLoop_onebyte (size : Nat) (data : List Nat) :
    ∀ buf : List Nat, buf.length + data.length = size →
      recvLoop size (data.map (fun b => Delivery.bytes [b])) buf = (some (buf ++ data), []) := by
  induction data with
  | nil =>
    intro buf h
    simp only [List.length_nil, Nat.add_zero] at h
    simp [recvLoop_full size [] buf h]
  | cons b ds ih =>
    intro buf h
    simp only [List.length_cons] at h
    rw [List.map_cons]
    cases ds with
    | nil =>
      simp only [List.map_nil]
      rw [recvLoop_bytes_all size [b] [] buf (by simpa using h) (by simp)]
    | cons d ds2 =>
      rw [recvLoop_bytes_step size [b] _ buf (by simp) (by
        simp only [List.length_singleton]
        simp only [List.length_cons] at h
        omega)]
      have h3 := ih (buf ++ [b]) (by
        simp only [List.length_append, List.length_singleton]
        simp only [List.length_cons] at h ⊢
        omega)
      rw [h3]
      simp

/-- A send loop entered with nothing pending returns at once. -/
lemma sendLoop_nil_pending (evs : List SendEv) (wire : List Nat) :
    sendLoop evs wire [] = (true, wire, evs) := by
  rw [sendLoop.eq_def]
  simp

/-- Sending an empty buffer consumes no schedule and succeeds. -/
lemma send_bytes_nil (evs : List SendEv) :
    frida_loader_send_bytes [] evs = (true, [], evs) := by
  unfold frida_loader_send_bytes
  exact sendLoop_nil_pending evs []

/-- One cooperative `send` that accepts everything transmits the whole
buffer. -/
lemma send_bytes_coop (bytes : List Nat) (n : Nat) (rest : List SendEv)
    (hne : bytes ≠ []) (hlen : bytes.length ≤ n) :
    frida_loader_send_bytes bytes (SendEv.ok n :: rest) = (true, bytes, rest) := by
  unfold frida_loader_send_bytes
  rw [sendLoop.eq_def]
  have h0 : bytes.length ≠ 0 := by
    have := List.length_pos.mpr hne
    omega
  have hmin : min n bytes.length = bytes.length := by omega
  simp only [h0, if_false, hmin, List.take_length, List.drop_length, List.nil_append]
  exact sendLoop_nil_pending rest bytes

/-- Behaviour of `frida_loader_send_value` over a fully cooperative schedule: success,
with the length byte `strlen v % 256` followed by that many leading bytes of
`v` on the wire. -/
lemma send_value_coop (v : List Nat) :
    frida_loader_send_value v [SendEv.ok 1, SendEv.ok 256] =
      (true, (strlen v % 256) :: v.take (strlen v % 256),
       if v.take (strlen v % 256) = [] then [SendEv.ok 256] else []) := by
  have h1 : frida_loader_send_bytes [strlen v % 256] [SendEv.ok 1, SendEv.ok 256] =
      (true, [strlen v % 256], [SendEv.ok 256]) :=
    send_bytes_coop _ 1 _ (by simp) (by simp)
  by_cases ht : v.take (strlen v % 256) = []
  · simp only [frida_loader_send_value, h1, ht, send_bytes_nil]
    simp [ht]
  · have h2 : frida_loader_send_bytes (v.take (strlen v % 256)) [SendEv.ok 256] =
        (true, v.take (strlen v % 256), []) := by
      refine send_bytes_coop _ 256 _ ht ?_
      have : strlen v % 256 < 256 := Nat.mod_lt _ (by omega)
      simp only [List.length_take]
      omega
    simp only [frida_loader_send_value, h1, h2, ht, if_false]
    simp

/-- The wire image of a value: one length byte, then that many leading bytes. -/
lemma encodeValue_eq (v : List Nat) :
    encodeValue v = (strlen v % 256) :: v.take (strlen v % 256) := by
  unfold encodeValue
  rw [send_value_coop]

/-- A buffer `frida_loader_recv_bytes` hands back holds exactly `size`
bytes. -/
lemma recv_bytes_some_length (size : Nat) (evs : List Delivery) (out : List Nat)
    (rem : List Delivery) (h : frida_loader_recv_bytes size evs = (some out, rem)) :
    out.length = size :=
  recvLoop_some_length size evs [] out rem h

/-- Behaviour of `frida_loader_recv_value` on a channel holding the length byte `sz`
followed by at least `sz` payload bytes returns exactly the first `sz`
payload bytes. -/
lemma recv_value_single (sz : Nat) (rest : List Nat) (h : sz ≤ rest.length) :
    (frida_loader_recv_value [Delivery.bytes (sz :: rest)]).value = some (rest.take sz) := by
  unfold frida_loader_recv_value frida_loader_recv_bytes
  cases rest with
  | nil =>
    have hsz : sz = 0 := by simpa using h
    subst hsz
    rw [recvLoop_bytes_all 1 [0] [] [] (by simp) (by simp)]
    simp [recvLoop_full]
  | cons a r2 =>
    rw [recvLoop_bytes_over 1 (sz :: a :: r2) [] [] (by simp) (by simp)]
    simp only [List.length_nil, Nat.sub_zero, List.nil_append, List.take_succ_cons,
      List.take_zero, List.drop_succ_cons, List.drop_zero, List.headD_cons]
    by_cases hz : sz = 0
    · subst hz
      rw [recvLoop_full 0 _ [] rfl]
      simp
    · rcases Nat.lt_or_ge sz (a :: r2).length with hlt | hge
      · rw [recvLoop_bytes_over sz (a :: r2) [] [] (by simp; omega) (by simpa using hlt)]
        simp
      · have heq : sz = (a :: r2).length := by omega
        rw [recvLoop_bytes_all sz (a :: r2) [] [] (by simpa using heq.symm) (by simp)]
        simp [heq, List.take_length]

/-- A buffer without zero bytes is measured in full by `strlen`. -/
lemma strlen_no_zero (v : List Nat) (hz : ∀ b ∈ v, b ≠ 0) : strlen v = v.length := by
  unfold strlen
  rw [List.takeWhile_eq_self_iff.mpr]
  intro x hx
  simpa using hz x hx

/-- Encoding a zero-free value of length at most 255 yields the length byte
followed by the value itself. -/
lemma encode_no_zero (v : List Nat) (hz : ∀ b ∈ v, b ≠ 0) (hlen : v.length ≤ 255) :
    encodeValue v = v.length :: v := by
  rw [encodeValue_eq, strlen_no_zero v hz, Nat.mod_eq_of_lt (by omega), List.take_length]

/-- Round trip for zero-free values of length at most 255. -/
lemma roundtrip_no_zero (v : List Nat) (hz : ∀ b ∈ v, b ≠ 0) (hlen : v.length ≤ 255) :
    decodeValue (encodeValue v) = some v := by
  rw [encode_no_zero v hz hlen]
  unfold decodeValue
  rw [recv_value_single v.length v (le_refl _), List.take_length]

/-! ### Claim theorems -/

/-- C1 (counterexample): when `pthread_create` fails right after the
rendezvous address `[120]` was received, `frida_loader_on_load` does not
behave as on an abort: the address buffer is owned by nobody
(`bootstrapAddress = none` yet the handshake never frees it) and the routine
still goes on to receive the resume token. -/
theorem frida_on_load_thread_failure_cex :
    (frida_loader_on_load true true [49] [SendEv.ok 1, SendEv.ok 256]
        [Delivery.bytes [1, 120, 1, 103]] false).pipeAddress = some [120] ∧
    (frida_loader_on_load true true [49] [SendEv.ok 1, SendEv.ok 256]
        [Delivery.bytes [1, 120, 1, 103]] false).bootstrapAddress = none ∧
    (frida_loader_on_load true true [49] [SendEv.ok 1, SendEv.ok 256]
        [Delivery.bytes [1, 120, 1, 103]] false).pipeAddressFreedByHandshake = false ∧
    (frida_loader_on_load true true [49] [SendEv.ok 1, SendEv.ok 256]
        [Delivery.bytes [1, 120, 1, 103]] false).resumeRecvAttempted = true := by
  decide

/-- C1 (amended): `frida_loader_on_load` never checks the result of
`pthread_create`.  When thread creation fails after the rendezvous address
was received, the routine proceeds exactly as on success — it still receives
(and frees) the resume token and closes the socket — but the
rendezvous-address buffer is never released by the handshake client and no
bootstrap thread owns it: it leaks. -/
theorem frida_on_load_thread_failure_leaks (pid_str addr : List Nat)
    (sendEvs : List SendEv) (chan : List Delivery)
    (hsend : (frida_loader_send_value pid_str sendEvs).1 = true)
    (hrecv : (frida_loader_recv_value chan).value = some addr) :
    frida_loader_on_load true true pid_str sendEvs chan false =
      { pidSendAttempted := true, pipeAddress := some addr,
        threadCreateAttempted := true, bootstrapAddress := none,
        resumeRecvAttempted := true,
        resumeToken := (frida_loader_recv_value (frida_loader_recv_value chan).chan).value,
        resumeFreed := true, socketClosed := true, callbackPathFreed := true,
        pipeAddressFreedByHandshake := false } := by
  simp [frida_loader_on_load, hsend, hrecv]

/-- Witness for C1 at a concrete environment. -/
theorem frida_on_load_thread_failure_leaks_witness :
    (frida_loader_send_value [49] [SendEv.ok 1, SendEv.ok 256]).1 = true ∧
    (frida_loader_recv_value [Delivery.bytes [1, 120, 1, 103]]).value = some [120] ∧
    frida_loader_on_load true true [49] [SendEv.ok 1, SendEv.ok 256]
        [Delivery.bytes [1, 120, 1, 103]] false =
      { pidSendAttempted := true, pipeAddress := some [120],
        threadCreateAttempted := true, bootstrapAddress := none,
        resumeRecvAttempted := true,
        resumeToken := (frida_loader_recv_value
          (frida_loader_recv_value [Delivery.bytes [1, 120, 1, 103]]).chan).value,
        resumeFreed := true, socketClosed := true, callbackPathFreed := true,
        pipeAddressFreedByHandshake := false } :=
  ⟨by decide, by decide,
    frida_on_load_thread_failure_leaks [49] [120] [SendEv.ok 1, SendEv.ok 256]
      [Delivery.bytes [1, 120, 1, 103]] (by decide) (by decide)⟩

/-- C2 (counterexample): a zero-length rendezvous value is not a receive
failure: the length byte 0 is followed by a successful zero-byte read, so
`frida_loader_recv_value` returns an (empty) buffer and the bootstrap thread
is started with it, contrary to the claim that no thread is started. -/
theorem frida_on_load_zero_length_cex :
    (frida_loader_recv_value [Delivery.bytes [0]]).value = some [] ∧
    (frida_loader_on_load true true [49] [SendEv.ok 1, SendEv.ok 256]
        [Delivery.bytes [0]] true).threadCreateAttempted = true ∧
    (frida_loader_on_load true true [49] [SendEv.ok 1, SendEv.ok 256]
        [Delivery.bytes [0]] true).bootstrapAddress = some [] := by
  decide

/-- C2 (amended): if receiving the rendezvous-address value genuinely fails
(connection dropped before or during the value, or a receive error), the
handshake client aborts: no bootstrap thread is started, the socket is
closed, and the routine returns without surfacing an error.  (A zero-length
value is not such a failure: it yields an empty buffer and the thread is
started, see the counterexample.) -/
theorem frida_on_load_recv_failure_aborts (pid_str : List Nat) (sendEvs : List SendEv)
    (chan : List Delivery) (pthread_create_ok : Bool)
    (hsend : (frida_loader_send_value pid_str sendEvs).1 = true)
    (hrecv : (frida_loader_recv_value chan).value = none) :
    frida_loader_on_load true true pid_str sendEvs chan pthread_create_ok =
      { pidSendAttempted := true, pipeAddress := none, threadCreateAttempted := false,
        bootstrapAddress := none, resumeRecvAttempted := false, resumeToken := none,
        resumeFreed := false, socketClosed := true, callbackPathFreed := true,
        pipeAddressFreedByHandshake := false } := by
  simp [frida_loader_on_load, hsend, hrecv]

/-- Witness for C2 at a concrete environment (peer closes before sending the
rendezvous address). -/
theorem frida_on_load_recv_failure_aborts_witness :
    (frida_loader_send_value [49] [SendEv.ok 1, SendEv.ok 256]).1 = true ∧
    (frida_loader_recv_value [Delivery.closed]).value = none ∧
    frida_loader_on_load true true [49] [SendEv.ok 1, SendEv.ok 256]
        [Delivery.closed] true =
      { pidSendAttempted := true, pipeAddress := none, threadCreateAttempted := false,
        bootstrapAddress := none, resumeRecvAttempted := false, resumeToken := none,
        resumeFreed := false, socketClosed := true, callbackPathFreed := true,
        pipeAddressFreedByHandshake := false } :=
  ⟨by decide, by decide,
    frida_on_load_recv_failure_aborts [49] [SendEv.ok 1, SendEv.ok 256]
      [Delivery.closed] true (by decide) (by decide)⟩

/-- C3 (counterexample): the value `[0]` has length 1 and contains a zero
byte; `send_value` measures it with `strlen`, so the round trip returns the
empty value, not `[0]`. -/
theorem frida_value_roundtrip_zero_byte_cex :
    ([0] : List Nat).length = 1 ∧
    decodeValue (encodeValue [0]) = some [] ∧
    decodeValue (encodeValue [0]) ≠ some [0] := by
  decide

/-- C3 (amended): `send_value` followed by `recv_value` over a loopback
channel transfers every value of length 0, 1, 127 or 255 exactly, provided
the value contains no zero byte; a value with an embedded zero byte is
truncated at its first zero byte (`strlen`), see the counterexample. -/
theorem frida_value_roundtrip_lengths (v : List Nat) (hz : ∀ b ∈ v, b ≠ 0)
    (hbyte : ∀ b ∈ v, b < 256)
    (hlen : v.length = 0 ∨ v.length = 1 ∨ v.length = 127 ∨ v.length = 255) :
    decodeValue (encodeValue v) = some v :=
  roundtrip_no_zero v hz (by rcases hlen with h | h | h | h <;> omega)

/-- Witness for C3 at the concrete value `[120]` (length 1). -/
theorem frida_value_roundtrip_lengths_witness :
    (∀ b ∈ ([120] : List Nat), b ≠ 0) ∧
    decodeValue (encodeValue [120]) = some [120] :=
  ⟨by decide, frida_value_roundtrip_lengths [120] (by decide) (by decide) (by decide)⟩

/-- C4: for every string of length at most 255 (byte values in 1..255, as in
a C string), the encoding is one length byte followed by the raw bytes, and
decoding the encoding yields the string again. -/
theorem frida_value_roundtrip (v : List Nat) (hz : ∀ b ∈ v, b ≠ 0)
    (hbyte : ∀ b ∈ v, b < 256) (hlen : v.length ≤ 255) :
    encodeValue v = v.length :: v ∧ decodeValue (encodeValue v) = some v :=
  ⟨encode_no_zero v hz hlen, roundtrip_no_zero v hz hlen⟩

/-- Witness for C4 at the concrete string "pipe". -/
theorem frida_value_roundtrip_witness :
    encodeValue [112, 105, 112, 101] = [4, 112, 105, 112, 101] ∧
    decodeValue (encodeValue [112, 105, 112, 101]) = some [112, 105, 112, 101] :=
  ⟨(frida_value_roundtrip [112, 105, 112, 101] (by decide) (by decide) (by decide)).1,
   (frida_value_roundtrip [112, 105, 112, 101] (by decide) (by decide) (by decide)).2⟩

/-- C5: `frida_loader_recv_bytes` (1) fills the requested count even when the
peer delivers one byte at a time; (2) a zero-length read before the count is
filled fails with no partial hand-off; (3) an `EINTR` is retried without
losing the bytes already received; (4) any other receive error fails; and
(5) a peer that closes after sending fewer bytes than requested produces
failure, not a partial buffer. -/
theorem frida_recv_bytes_exact :
    (∀ data : List Nat,
      frida_loader_recv_bytes data.length (data.map (fun b => Delivery.bytes [b])) =
        (some data, [])) ∧
    (∀ (size : Nat) (buf : List Nat) (evs : List Delivery), buf.length ≠ size →
      recvLoop size (Delivery.closed :: evs) buf = (none, evs)) ∧
    (∀ (size : Nat) (buf : List Nat) (evs : List Delivery), buf.length ≠ size →
      recvLoop size (Delivery.eintr :: evs) buf = recvLoop size evs buf) ∧
    (∀ (size : Nat) (buf : List Nat) (evs : List Delivery), buf.length ≠ size →
      recvLoop size (Delivery.err :: evs) buf = (none, evs)) ∧
    (∀ (size : Nat) (bs : List Nat), bs.length < size →
      (frida_loader_recv_bytes size [Delivery.bytes bs, Delivery.closed]).1 = none) := by
  refine ⟨?_, ?_, ?_, ?_, ?_⟩
  · intro data
    have h := recvLoop_onebyte data.length data [] (by simp)
    simpa [frida_loader_recv_bytes] using h
  · intro size buf evs h
    rw [recvLoop.eq_def]
    simp [h]
  · intro size buf evs h
    rw [recvLoop.eq_def]
    simp [h]
  · intro size buf evs h
    rw [recvLoop.eq_def]
    simp [h]
  · intro size bs h
    unfold frida_loader_recv_bytes
    cases bs with
    | nil =>
      rw [recvLoop.eq_def]
      have h0 : ¬ (0 : Nat) = size := by simp at h; omega
      simp [h0]
    | cons c cs =>
      rw [recvLoop_bytes_step size (c :: cs) [Delivery.closed] [] (by simp) (by simpa using h)]
      rw [recvLoop.eq_def]
      have h1 : ¬ (cs.length + 1 = size) := by simp at h; omega
      simp [h1]

/-- Witness for C5 at concrete fragments, buffers and schedules. -/
theorem frida_recv_bytes_exact_witness :
    frida_loader_recv_bytes 2 ([5, 6].map (fun b => Delivery.bytes [b])) = (some [5, 6], []) ∧
    recvLoop 3 [Delivery.closed] [7] = (none, []) ∧
    recvLoop 3 [Delivery.eintr, Delivery.bytes [1, 2]] [7] =
      recvLoop 3 [Delivery.bytes [1, 2]] [7] ∧
    recvLoop 3 [Delivery.err] [7] = (none, []) ∧
    (frida_loader_recv_bytes 3 [Delivery.bytes [1, 2], Delivery.closed]).1 = none :=
  ⟨frida_recv_bytes_exact.1 [5, 6],
   frida_recv_bytes_exact.2.1 3 [7] [] (by decide),
   frida_recv_bytes_exact.2.2.1 3 [7] [Delivery.bytes [1, 2]] (by decide),
   frida_recv_bytes_exact.2.2.2.1 3 [7] [] (by decide),
   frida_recv_bytes_exact.2.2.2.2 3 [1, 2] (by decide)⟩

/-- C6: whenever `frida_loader_recv_value` fails — on the length byte or on
the payload — every `malloc` it performed is matched by a `free` before the
failure is reported. -/
theorem frida_recv_value_no_leak_on_failure (chan : List Delivery)
    (h : (frida_loader_recv_value chan).value = none) :
    (frida_loader_recv_value chan).mallocs = (frida_loader_recv_value chan).frees := by
  unfold frida_loader_recv_value at h ⊢
  rcases h1 : frida_loader_recv_bytes 1 chan with ⟨o1, rest⟩
  rw [h1] at h
  cases o1 with
  | none => rfl
  | some szb =>
    obtain ⟨b, rfl⟩ := List.length_eq_one.mp (recv_bytes_some_length 1 chan szb rest h1)
    simp only [List.headD_cons] at h ⊢
    rcases h2 : frida_loader_recv_bytes b rest with ⟨o2, rest2⟩
    rw [h2] at h
    cases o2 with
    | none => rfl
    | some buf => simp at h

/-- Witness for C6: the length byte 3 arrives but the payload read hits peer
closure; the one allocated buffer is freed. -/
theorem frida_recv_value_no_leak_on_failure_witness :
    (frida_loader_recv_value [Delivery.bytes [3], Delivery.closed]).value = none ∧
    (frida_loader_recv_value [Delivery.bytes [3], Delivery.closed]).mallocs =
      (frida_loader_recv_value [Delivery.bytes [3], Delivery.closed]).frees :=
  ⟨by decide, frida_recv_value_no_leak_on_failure [Delivery.bytes [3], Delivery.closed]
    (by decide)⟩

/-- C7: after a successful `dlopen` and `dlsym`, the bootstrap thread calls
`frida_agent_main` with exactly the three arguments
`(pipe_address, NULL, 0)`, and only afterwards unloads the module and frees
the agent path and the rendezvous-address buffer. -/
theorem frida_run_calls_agent_main (addr : List Nat) :
    frida_loader_run addr true true =
      [RunAction.dlopenAgent, RunAction.agentMain addr none 0, RunAction.dlcloseAgent,
       RunAction.freeAgentPath, RunAction.freePipeAddress] := by
  simp [frida_loader_run]

/-- C8: a failure to receive the resume token does not make the handshake
fail: `free (permission_to_resume)` is still executed (a no-op on `NULL`),
the socket is closed, the callback path is freed, and the routine completes
with the bootstrap thread already dispatched. -/
theorem frida_on_load_resume_failure_tolerated (pid_str addr : List Nat)
    (sendEvs : List SendEv) (chan : List Delivery) (pthread_create_ok : Bool)
    (hsend : (frida_loader_send_value pid_str sendEvs).1 = true)
    (hrecv : (frida_loader_recv_value chan).value = some addr)
    (hresume : (frida_loader_recv_value (frida_loader_recv_value chan).chan).value = none) :
    frida_loader_on_load true true pid_str sendEvs chan pthread_create_ok =
      { pidSendAttempted := true, pipeAddress := some addr, threadCreateAttempted := true,
        bootstrapAddress := if pthread_create_ok then some addr else none,
        resumeRecvAttempted := true, resumeToken := none, resumeFreed := true,
        socketClosed := true, callbackPathFreed := true,
        pipeAddressFreedByHandshake := false } := by
  simp [frida_loader_on_load, hsend, hrecv, hresume]

/-- Witness for C8: address `[120]` arrives, then the peer closes before the
resume token. -/
theorem frida_on_load_resume_failure_tolerated_witness :
    (frida_loader_send_value [49] [SendEv.ok 1, SendEv.ok 256]).1 = true ∧
    (frida_loader_recv_value [Delivery.bytes [1, 120], Delivery.closed]).value = some [120] ∧
    (frida_loader_recv_value
      (frida_loader_recv_value [Delivery.bytes [1, 120], Delivery.closed]).chan).value = none ∧
    frida_loader_on_load true true [49] [SendEv.ok 1, SendEv.ok 256]
        [Delivery.bytes [1, 120], Delivery.closed] true =
      { pidSendAttempted := true, pipeAddress := some [120], threadCreateAttempted := true,
        bootstrapAddress := if true then some [120] else none,
        resumeRecvAttempted := true, resumeToken := none, resumeFreed := true,
        socketClosed := true, callbackPathFreed := true,
        pipeAddressFreedByHandshake := false } :=
  ⟨by decide, by decide, by decide,
    frida_on_load_resume_failure_tolerated [49] [120] [SendEv.ok 1, SendEv.ok 256]
      [Delivery.bytes [1, 120], Delivery.closed] true (by decide) (by decide) (by decide)⟩

/-- C9: a successfully received value is exactly as long as its length
prefix announced, and on a channel carrying the length byte `sz` followed by
the payload it is exactly the first `sz` payload bytes — no NUL terminator or
other byte is appended. -/
theorem frida_recv_value_exact_length :
    (∀ (chan : List Delivery) (v : List Nat),
      (frida_loader_recv_value chan).value = some v →
      v.length = ((frida_loader_recv_bytes 1 chan).1.getD []).headD 0) ∧
    (∀ (sz : Nat) (rest : List Nat), sz ≤ rest.length →
      (frida_loader_recv_value [Delivery.bytes (sz :: rest)]).value = some (rest.take sz)) := by
  constructor
  · intro chan v h
    unfold frida_loader_recv_value at h
    rcases h1 : frida_loader_recv_bytes 1 chan with ⟨o1, rest⟩
    rw [h1] at h
    cases o1 with
    | none => simp at h
    | some szb =>
      obtain ⟨b, rfl⟩ := List.length_eq_one.mp (recv_bytes_some_length 1 chan szb rest h1)
      simp only [List.headD_cons] at h ⊢
      rcases h2 : frida_loader_recv_bytes b rest with ⟨o2, rest2⟩
      rw [h2] at h
      cases o2 with
      | none => simp at h
      | some buf =>
        have hv : v = buf := by simpa using h.symm
        subst hv
        simpa using recv_bytes_some_length _ _ _ _ h2
  · exact recv_value_single

/-- Witness for C9: length byte 2 followed by payload `[9, 8, 5]`. -/
theorem frida_recv_value_exact_length_witness :
    ([9, 8] : List Nat).length =
      ((frida_loader_recv_bytes 1 [Delivery.bytes [2, 9, 8, 5]]).1.getD []).headD 0 ∧
    (frida_loader_recv_value [Delivery.bytes [2, 9, 8, 5]]).value =
      some (List.take 2 [9, 8, 5]) :=
  ⟨frida_recv_value_exact_length.1 [Delivery.bytes [2, 9, 8, 5]] [9, 8] (by decide),
   frida_recv_value_exact_length.2 2 [9, 8, 5] (by decide)⟩

/-- C10: for a string whose `strlen` exceeds 255, `frida_loader_send_value`
does not report an error: over a cooperative channel it succeeds, writing a
length byte of `strlen v % 256` (the C truncation to `uint8_t`) followed by
only that many leading bytes of the string. -/
theorem frida_send_value_truncates_mod_256 (v : List Nat) (h : 255 < strlen v) :
    (frida_loader_send_value v [SendEv.ok 1, SendEv.ok 256]).1 = true ∧
    (frida_loader_send_value v [SendEv.ok 1, SendEv.ok 256]).2.1 =
      (strlen v % 256) :: v.take (strlen v % 256) := by
  rw [send_value_coop]
  exact ⟨rfl, rfl⟩

set_option maxRecDepth 4000 in
/-- Witness for C10: 256 nonzero bytes; the length byte wraps to 0 and no
payload byte is transmitted, yet the call succeeds. -/
theorem frida_send_value_truncates_mod_256_witness :
    (frida_loader_send_value (List.replicate 256 1) [SendEv.ok 1, SendEv.ok 256]).1 = true ∧
    (frida_loader_send_value (List.replicate 256 1) [SendEv.ok 1, SendEv.ok 256]).2.1 =
      (strlen (List.replicate 256 1) % 256) ::
        (List.replicate 256 1).take (strlen (List.replicate 256 1) % 256) :=
  frida_send_value_truncates_mod_256 (List.replicate 256 1) (by decide)

end FridaLoader
